import Mathlib

/-!
Shallow embedding of the AstroView multi-hazard risk scoring engine
(`disasterRiskEngine.js`), its ingestion layer (`disasterService.js`)
and the wiring of the `useDisasterData` hook.

JavaScript numbers are modelled as rationals (`ℚ`); the claims under
study involve only exact decimal constants, additions, multiplications
by decimal weights, comparisons, `Math.min` and `Math.round`, all of
which are exact on `ℚ`.  `Math.round x` is `⌊x + 1/2⌋` (this matches the
JavaScript semantics on negative halves: `Math.round (-2.5) = -2`).
Fields that JavaScript code may leave `undefined` are modelled as
`Option`; the `x || d` defaulting idiom is modelled by `jsOrQ`, which
also substitutes the default when the value is `0` (JavaScript treats
`0` as falsy).  String formatting of factor values (`toFixed`) is
elided: a factor is modelled by its `name` and `impact` fields, which
is all the claims mention.
-/

namespace AstroView

/-- JavaScript `Math.round`: round half toward positive infinity. -/
def jsRound (x : ℚ) : ℤ := ⌊x + 1/2⌋

/-- The `x || d` defaulting idiom on an optional numeric field: the
default is used when the field is absent or `0` (falsy). -/
def jsOrQ (x : Option ℚ) (d : ℚ) : ℚ :=
  match x with
  | some v => if v = 0 then d else v
  | none => d

/-- Truthiness of an optional numeric field (`undefined` and `0` are falsy). -/
def jsTruthyQ (x : Option ℚ) : Bool :=
  match x with
  | some v => decide (v ≠ 0)
  | none => false

/-- Risk level labels, from `RISK_LEVELS` in `disasterRiskEngine.js`
(the color / bgColor / score presentation fields are not modelled). -/
inductive RiskLevel where
  | LOW
  | MODERATE
  | HIGH
  | SEVERE
  | EXTREME
deriving DecidableEq, Repr

/-- The `label` string of a risk level object, used by the scorers to
pick recommendation tables (`level.label`). -/
def RiskLevel.label : RiskLevel → String
  | .LOW => "LOW"
  | .MODERATE => "MODERATE"
  | .HIGH => "HIGH"
  | .SEVERE => "SEVERE"
  | .EXTREME => "EXTREME"

/-- `getRiskLevel` from `disasterRiskEngine.js`: the shared step
function from score to level. -/
def getRiskLevel (score : ℚ) : RiskLevel :=
  if score ≥ 85 then .EXTREME
  else if score ≥ 60 then .HIGH
  else if score ≥ 35 then .MODERATE
  else .LOW

/-- One entry of a scorer's `factors` list.  The formatted `value`
string is elided (pure presentation). -/
structure Factor where
  name : String
  impact : String
deriving DecidableEq, Repr

/-- A scorer result.  The JavaScript objects are ad hoc: some branches
omit `factors`, `reasoning` or `recommendations`, so those are
`Option`s here (`none` = field absent).  The scorer-specific extra
fields (`recentCount`, `strongestMag`, `activeStorms`) are elided: no
claim mentions them. -/
structure RiskScore where
  score : ℚ
  level : RiskLevel
  factors : Option (List Factor)
  reasoning : Option String
  recommendations : Option (List String)
deriving DecidableEq, Repr

/-! ## Flood risk -/

/-- Normalized precipitation record (`fetchPrecipitationHistory`
result): daily series plus 7-day and 3-day totals.  The `dates` and
`rain` arrays are elided (unused by scorers). -/
structure PrecipData where
  total7Day : Option ℚ
  total3Day : Option ℚ
  precipitation : Option (List ℚ)
deriving DecidableEq, Repr

/-- Current-weather snapshot, with both field-name variants the
wildfire scorer probes (`temperature` / `temperature_2m`, etc.). -/
structure CurrentWeather where
  temperature : Option ℚ
  temperature2m : Option ℚ
  humidity : Option ℚ
  relativeHumidity2m : Option ℚ
  windSpeed : Option ℚ
  windSpeed10m : Option ℚ
  precipitation : Option ℚ
deriving DecidableEq, Repr

/-- Flood factor 1: 7-day accumulation. -/
def floodF1 (total7Day : ℚ) : ℚ × List Factor :=
  if total7Day > 150 then (40, [⟨"7-day accumulation", "HIGH"⟩])
  else if total7Day > 100 then (25, [⟨"7-day accumulation", "MODERATE"⟩])
  else if total7Day > 50 then (10, [⟨"7-day accumulation", "LOW"⟩])
  else (0, [])

/-- Flood factor 2: 72-hour rainfall. -/
def floodF2 (total3Day : ℚ) : ℚ × List Factor :=
  if total3Day > 100 then (35, [⟨"72-hour rainfall", "HIGH"⟩])
  else if total3Day > 60 then (20, [⟨"72-hour rainfall", "MODERATE"⟩])
  else if total3Day > 30 then (8, [⟨"72-hour rainfall", "LOW"⟩])
  else (0, [])

/-- Flood factor 3: current rainfall intensity, guarded by a
truthiness check on `currentWeather?.precipitation`. -/
def floodF3 (currentWeather : Option CurrentWeather) : ℚ × List Factor :=
  match currentWeather with
  | none => (0, [])
  | some w =>
    if jsTruthyQ w.precipitation then
      let currentPrecip := jsOrQ w.precipitation 0
      if currentPrecip > 10 then (25, [⟨"Current intensity", "HIGH"⟩])
      else if currentPrecip > 5 then (15, [⟨"Current intensity", "MODERATE"⟩])
      else (0, [])
    else (0, [])

/-- Flood factor 4: soil saturation proxy (count of days with more
than 1mm in the daily series). -/
def floodF4 (series : List ℚ) : ℚ × List Factor :=
  let rainDays := (series.filter (fun p => p > 1)).length
  if rainDays ≥ 5 then (15, [⟨"Soil saturation", "HIGH"⟩])
  else if rainDays ≥ 3 then (8, [⟨"Soil saturation", "MODERATE"⟩])
  else (0, [])

/-- Flood reasoning table, indexed by the pre-level score thresholds. -/
def floodReasoning (score : ℚ) : String :=
  if score ≥ 60 then "Heavy rainfall accumulation creating significant flood risk"
  else if score ≥ 35 then "Elevated precipitation may cause localized flooding"
  else if score ≥ 15 then "Moderate rainfall detected, monitor conditions"
  else "Normal precipitation levels"

/-- `getFloodRecommendations` from `disasterRiskEngine.js`. -/
def getFloodRecommendations (level : String) : List String :=
  if level = "EXTREME" ∨ level = "SEVERE" then
    ["Evacuate if authorities advise",
     "Move to higher ground immediately",
     "Avoid walking or driving through flood water",
     "Prepare emergency supplies"]
  else if level = "HIGH" then
    ["Prepare emergency supplies",
     "Identify evacuation routes",
     "Avoid low-lying areas",
     "Do not attempt to cross flooded roads"]
  else if level = "MODERATE" then
    ["Stay informed of weather conditions",
     "Avoid flood-prone areas",
     "Keep emergency kit accessible"]
  else ["Monitor local weather updates"]

/-- `calculateFloodRisk` from `disasterRiskEngine.js`. -/
def calculateFloodRisk (precipData : Option PrecipData)
    (currentWeather : Option CurrentWeather) : RiskScore :=
  match precipData with
  | none =>
    { score := 0, level := .LOW, factors := some [],
      reasoning := some "Insufficient precipitation data available",
      recommendations := none }
  | some pd =>
    let f1 := floodF1 (jsOrQ pd.total7Day 0)
    let f2 := floodF2 (jsOrQ pd.total3Day 0)
    let f3 := floodF3 currentWeather
    let f4 := floodF4 (pd.precipitation.getD [])
    let score := min 100 (f1.1 + f2.1 + f3.1 + f4.1)
    let level := getRiskLevel score
    { score := score, level := level,
      factors := some (f1.2 ++ f2.2 ++ f3.2 ++ f4.2),
      reasoning := some (floodReasoning score),
      recommendations := some (getFloodRecommendations level.label) }

/-! ## Wildfire risk -/

/-- Wildfire factor 1: temperature. -/
def wildfireF1 (temp : ℚ) : ℚ × List Factor :=
  if temp > 40 then (30, [⟨"Temperature", "HIGH"⟩])
  else if temp > 35 then (20, [⟨"Temperature", "MODERATE"⟩])
  else if temp > 30 then (10, [⟨"Temperature", "LOW"⟩])
  else (0, [])

/-- Wildfire factor 2: low humidity. -/
def wildfireF2 (humidity : ℚ) : ℚ × List Factor :=
  if humidity < 20 then (30, [⟨"Humidity", "HIGH"⟩])
  else if humidity < 30 then (20, [⟨"Humidity", "MODERATE"⟩])
  else if humidity < 40 then (10, [⟨"Humidity", "LOW"⟩])
  else (0, [])

/-- Wildfire factor 3: wind speed. -/
def wildfireF3 (windSpeed : ℚ) : ℚ × List Factor :=
  if windSpeed > 40 then (25, [⟨"Wind speed", "HIGH"⟩])
  else if windSpeed > 25 then (15, [⟨"Wind speed", "MODERATE"⟩])
  else if windSpeed > 15 then (5, [⟨"Wind speed", "LOW"⟩])
  else (0, [])

/-- Wildfire factor 4: rain deficit, only evaluated when
`precipData` is present. -/
def wildfireF4 (precipData : Option PrecipData) : ℚ × List Factor :=
  match precipData with
  | none => (0, [])
  | some pd =>
    let total7Day := jsOrQ pd.total7Day 0
    if total7Day < 2 then (20, [⟨"Rain deficit", "HIGH"⟩])
    else if total7Day < 10 then (10, [⟨"Rain deficit", "MODERATE"⟩])
    else (0, [])

/-- Wildfire reasoning table. -/
def wildfireReasoning (score : ℚ) : String :=
  if score ≥ 60 then "Extreme fire weather: high temp, low humidity, strong winds"
  else if score ≥ 35 then "Elevated fire risk due to dry and warm conditions"
  else if score ≥ 15 then "Mild fire weather, maintain awareness"
  else "Normal fire weather conditions"

/-- `getWildfireRecommendations` from `disasterRiskEngine.js`. -/
def getWildfireRecommendations (level : String) : List String :=
  if level = "EXTREME" then
    ["Be prepared to evacuate immediately",
     "Create defensible space around property",
     "Have emergency bag ready",
     "Monitor emergency channels"]
  else if level = "HIGH" then
    ["Avoid outdoor burning",
     "Clear dry vegetation from property",
     "Have evacuation plan ready",
     "Keep emergency supplies accessible"]
  else if level = "MODERATE" then
    ["Exercise caution with outdoor activities",
     "Ensure fire extinguishers are available",
     "Report any smoke or fire immediately"]
  else ["Follow local fire advisories"]

/-- `calculateWildfireRisk` from `disasterRiskEngine.js`.  Note the
defaulting chains on the inputs: `temperature || temperature_2m || 0`,
`humidity || relative_humidity_2m || 50`, `windSpeed || wind_speed_10m
|| 0`; a present-but-zero humidity falls through to the default `50`
because `0` is falsy. -/
def calculateWildfireRisk (weather : Option CurrentWeather)
    (precipData : Option PrecipData) : RiskScore :=
  match weather with
  | none =>
    { score := 0, level := .LOW, factors := some [],
      reasoning := some "Insufficient weather data",
      recommendations := none }
  | some w =>
    let temp := jsOrQ w.temperature (jsOrQ w.temperature2m 0)
    let humidity := jsOrQ w.humidity (jsOrQ w.relativeHumidity2m 50)
    let windSpeed := jsOrQ w.windSpeed (jsOrQ w.windSpeed10m 0)
    let f1 := wildfireF1 temp
    let f2 := wildfireF2 humidity
    let f3 := wildfireF3 windSpeed
    let f4 := wildfireF4 precipData
    let score := min 100 (f1.1 + f2.1 + f3.1 + f4.1)
    let level := getRiskLevel score
    { score := score, level := level,
      factors := some (f1.2 ++ f2.2 ++ f3.2 ++ f4.2),
      reasoning := some (wildfireReasoning score),
      recommendations := some (getWildfireRecommendations level.label) }

/-! ## Earthquake risk -/

/-- A normalized seismic event, as produced by `fetchEarthquakes`
(presentation fields `location`, `timeAgo`, `url`, `felt`, `alert`,
`significance`, `depth`, `lat`, `lon`, `magnitudeType`, `id` elided:
the scorer reads only `magnitude`, `distance`, `time`, `tsunami`). -/
structure Earthquake where
  magnitude : ℚ
  distance : ℚ
  time : ℚ
  tsunami : Bool
deriving DecidableEq, Repr

/-- The `strongest` pick: `earthquakes.reduce((max, eq) =>
eq.magnitude > max.magnitude ? eq : max, earthquakes[0])` — the first
element is the initial accumulator and is folded over again. -/
def strongestQuake (h : Earthquake) (t : List Earthquake) : Earthquake :=
  (h :: t).foldl (fun m e => if e.magnitude > m.magnitude then e else m) h

/-- Earthquake factor 1: strongest magnitude. -/
def eqMagPoints (strongest : Earthquake) : ℚ × List Factor :=
  if strongest.magnitude ≥ 6 then (40, [⟨"Nearby major quake", "HIGH"⟩])
  else if strongest.magnitude ≥ 5 then (25, [⟨"Moderate quake nearby", "MODERATE"⟩])
  else if strongest.magnitude ≥ 4 then (10, [⟨"Light quake detected", "LOW"⟩])
  else (0, [])

/-- Earthquake factor 2: proximity of the strongest event. -/
def eqProxPoints (strongest : Earthquake) : ℚ × List Factor :=
  if strongest.distance < 100 then (25, [⟨"Proximity", "HIGH"⟩])
  else if strongest.distance < 300 then (15, [⟨"Proximity", "MODERATE"⟩])
  else if strongest.distance < 500 then (5, [⟨"Proximity", "LOW"⟩])
  else (0, [])

/-- Events within the last 24 hours and within 500 km (`recent24h`);
`now` stands for `Date.now()`. -/
def recent24h (earthquakes : List Earthquake) (now : ℚ) : List Earthquake :=
  earthquakes.filter (fun e => now - e.time < 24 * 60 * 60 * 1000 ∧ e.distance < 500)

/-- Earthquake factor 3: swarm frequency. -/
def eqFreqPoints (recentCount : ℕ) : ℚ × List Factor :=
  if recentCount ≥ 5 then (20, [⟨"Seismic swarm", "HIGH"⟩])
  else if recentCount ≥ 3 then (10, [⟨"Elevated activity", "MODERATE"⟩])
  else (0, [])

/-- Earthquake factor 4: tsunami potential — `earthquakes.some(eq =>
eq.tsunami && eq.magnitude >= 7)`, a scan over the entire list. -/
def eqTsunamiPoints (earthquakes : List Earthquake) : ℚ × List Factor :=
  if earthquakes.any (fun e => e.tsunami && decide (e.magnitude ≥ 7)) then
    (15, [⟨"Tsunami potential", "HIGH"⟩])
  else (0, [])

/-- Earthquake reasoning table. -/
def eqReasoning (score : ℚ) : String :=
  if score ≥ 60 then "Significant seismic activity detected - aftershocks possible"
  else if score ≥ 35 then "Moderate earthquake activity in region"
  else if score ≥ 15 then "Minor seismic activity detected"
  else "No significant seismic events in your area"

/-- `getEarthquakeRecommendations` from `disasterRiskEngine.js`. -/
def getEarthquakeRecommendations (level : String) : List String :=
  if level = "EXTREME" ∨ level = "SEVERE" then
    ["Expect aftershocks - stay alert",
     "Avoid damaged buildings",
     "Check for gas leaks and hazards",
     "Listen to emergency broadcasts"]
  else if level = "HIGH" then
    ["Review earthquake safety procedures",
     "Secure heavy furniture and objects",
     "Know your evacuation routes",
     "Keep emergency supplies ready"]
  else if level = "MODERATE" then
    ["Be aware of seismic activity",
     "Ensure emergency kit is stocked",
     "Know Drop, Cover, Hold On procedure"]
  else ["Standard earthquake preparedness advised"]

/-- `calculateEarthquakeRisk` from `disasterRiskEngine.js`.  `now`
models the `Date.now()` call inside the function. -/
def calculateEarthquakeRisk (earthquakes : Option (List Earthquake))
    (now : ℚ) : RiskScore :=
  match earthquakes with
  | none =>
    { score := 0, level := .LOW, factors := some [],
      reasoning := some "No significant seismic activity detected nearby",
      recommendations := none }
  | some [] =>
    { score := 0, level := .LOW, factors := some [],
      reasoning := some "No significant seismic activity detected nearby",
      recommendations := none }
  | some (h :: t) =>
    let strongest := strongestQuake h t
    let f1 := eqMagPoints strongest
    let f2 := eqProxPoints strongest
    let f3 := eqFreqPoints (recent24h (h :: t) now).length
    let f4 := eqTsunamiPoints (h :: t)
    let score := min 100 (f1.1 + f2.1 + f3.1 + f4.1)
    let level := getRiskLevel score
    { score := score, level := level,
      factors := some (f1.2 ++ f2.2 ++ f3.2 ++ f4.2),
      reasoning := some (eqReasoning score),
      recommendations := some (getEarthquakeRecommendations level.label) }

/-! ## Cyclone / storm risk -/

/-- The mixed-type `category` field of a storm: a Saffir-Simpson
number (1..5), a string token ("TS"/"TD"), or `null`.  A JavaScript
`>=` comparison against a number is false for the string tokens (they
coerce to NaN) and false for `null` against 3 or 1 (`null` coerces to
0), which `catGE` reproduces. -/
inductive StormCategory where
  | num (q : ℚ)
  | str (s : String)
  | nullv
deriving DecidableEq, Repr

/-- `category >= n` under JavaScript coercion: true only for a numeric
category at least `n` (the tokens "TS"/"TD" coerce to NaN, `null`
coerces to 0 which is below both thresholds 1 and 3 used here). -/
def catGE (c : StormCategory) (n : ℚ) : Bool :=
  match c with
  | .num q => decide (q ≥ n)
  | .str _ => false
  | .nullv => false

/-- A storm record from `detectStormConditions` (presentation fields
`id`, `name`, `direction`, `directionDeg`, `pressure`, `risk`,
`timestamp` elided: the scorer reads `windSpeed`, `windGusts`,
`category`, `type`). -/
structure Storm where
  windSpeed : Option ℚ
  windGusts : Option ℚ
  category : StormCategory
  type : String
deriving DecidableEq, Repr

/-- A weather alert (only `severity` is read by the scorer). -/
structure WeatherAlert where
  severity : String
deriving DecidableEq, Repr

/-- `gusts > n` where gusts may be `undefined` (NaN comparison is false). -/
def gustsGT (g : Option ℚ) (n : ℚ) : Bool :=
  match g with
  | some v => decide (v > n)
  | none => false

/-- The strongest storm: `storms.reduce((max, s) => (s.windSpeed||0) >
(max.windSpeed||0) ? s : max, storms[0])`. -/
def strongestStorm (h : Storm) (t : List Storm) : Storm :=
  (h :: t).foldl (fun m s => if jsOrQ s.windSpeed 0 > jsOrQ m.windSpeed 0 then s else m) h

/-- Cyclone storm factor: category / tropical-storm / null tiers. -/
def cycloneStormPoints (strongest : Storm) : ℚ × List Factor :=
  if catGE strongest.category 3 then (50, [⟨"Major storm", "HIGH"⟩])
  else if catGE strongest.category 1 then (35, [⟨"Hurricane", "MODERATE"⟩])
  else if strongest.type = "Tropical Storm" then (20, [⟨"Tropical storm", "MODERATE"⟩])
  else (0, [])

/-- Cyclone wind-gust factor. -/
def cycloneGustPoints (strongest : Storm) : ℚ × List Factor :=
  if gustsGT strongest.windGusts 120 then (25, [⟨"Wind gusts", "HIGH"⟩])
  else if gustsGT strongest.windGusts 80 then (15, [⟨"Wind gusts", "MODERATE"⟩])
  else (0, [])

/-- Cyclone alert factor: +20 when a HIGH-severity alert is present,
else +10 when any alert is present. -/
def cycloneAlertPoints (alerts : List WeatherAlert) : ℚ × List Factor :=
  if (alerts.filter (fun a => a.severity = "HIGH")).length > 0 then
    (20, [⟨"Severe alerts", "HIGH"⟩])
  else (10, [⟨"Weather alerts", "MODERATE"⟩])

/-- Cyclone reasoning table. -/
def cycloneReasoning (score : ℚ) : String :=
  if score ≥ 60 then "Active severe storm system in area"
  else if score ≥ 35 then "Storm conditions present - monitor closely"
  else if score ≥ 15 then "Weather disturbance detected"
  else "No significant storm activity"

/-- `getCycloneRecommendations` from `disasterRiskEngine.js`. -/
def getCycloneRecommendations (level : String) : List String :=
  if level = "EXTREME" ∨ level = "SEVERE" then
    ["Evacuate if instructed by authorities",
     "Seek shelter in a sturdy building",
     "Stay away from windows",
     "Have emergency supplies ready"]
  else if level = "HIGH" then
    ["Prepare for possible evacuation",
     "Secure outdoor objects",
     "Stock emergency supplies",
     "Charge all devices"]
  else if level = "MODERATE" then
    ["Monitor weather updates",
     "Review emergency plans",
     "Ensure supplies are accessible"]
  else ["Stay informed of weather conditions"]

/-- `calculateCycloneRisk` from `disasterRiskEngine.js`. -/
def calculateCycloneRisk (storms : Option (List Storm))
    (alerts : Option (List WeatherAlert)) : RiskScore :=
  let stormList := storms.getD []
  let alertList := alerts.getD []
  if stormList.isEmpty ∧ alertList.isEmpty then
    { score := 0, level := .LOW, factors := some [],
      reasoning := some "No active storm systems detected",
      recommendations := none }
  else
    let stormPart : ℚ × List Factor :=
      match stormList with
      | [] => (0, [])
      | h :: t =>
        let strongest := strongestStorm h t
        let p1 := cycloneStormPoints strongest
        let p2 := cycloneGustPoints strongest
        (p1.1 + p2.1, p1.2 ++ p2.2)
    let alertPart : ℚ × List Factor :=
      match alertList with
      | [] => (0, [])
      | _ :: _ => cycloneAlertPoints alertList
    let score := min 100 (stormPart.1 + alertPart.1)
    let level := getRiskLevel score
    { score := score, level := level,
      factors := some (stormPart.2 ++ alertPart.2),
      reasoning := some (cycloneReasoning score),
      recommendations := some (getCycloneRecommendations level.label) }

/-! ## Heatwave adapter -/

/-- Qualitative heatwave input (`heatwaveRisk.level` from the Climate
tab data). -/
structure HeatwaveInput where
  level : String
deriving DecidableEq, Repr

/-- `calculateHeatwaveRiskScore` from `disasterRiskEngine.js`: the
level-to-score table `{HIGH: 75, MODERATE: 40, LOW: 10}` with `|| 0`
for unknown levels.  The result object carries only `score` and
`level` — no `factors`, `reasoning` or `recommendations` fields. -/
def calculateHeatwaveRiskScore (heatwaveRisk : Option HeatwaveInput) : RiskScore :=
  match heatwaveRisk with
  | none =>
    { score := 0, level := .LOW, factors := none,
      reasoning := none, recommendations := none }
  | some hw =>
    let score : ℚ :=
      if hw.level = "HIGH" then 75
      else if hw.level = "MODERATE" then 40
      else if hw.level = "LOW" then 10
      else 0
    { score := score, level := getRiskLevel score, factors := none,
      reasoning := none, recommendations := none }

/-! ## Composite disaster risk index -/

/-- The five per-hazard input risks of `calculateDisasterRiskIndex`
(each may be `null`/absent). -/
structure Risks where
  floodRisk : Option RiskScore
  wildfireRisk : Option RiskScore
  earthquakeRisk : Option RiskScore
  cycloneRisk : Option RiskScore
  heatwaveRisk : Option RiskScore
deriving DecidableEq, Repr

/-- `risk?.score || 0`: 0 when absent (a present score of 0 also maps
to 0, so plain defaulting is exact here). -/
def riskScoreOf (r : Option RiskScore) : ℚ :=
  match r with
  | some x => x.score
  | none => 0

/-- The `scores` map of the composite, in iteration order. -/
structure HazardScores where
  flood : ℚ
  wildfire : ℚ
  earthquake : ℚ
  cyclone : ℚ
  heatwave : ℚ
deriving DecidableEq, Repr

/-- `Object.values(scores)` in insertion order. -/
def HazardScores.values (s : HazardScores) : List ℚ :=
  [s.flood, s.wildfire, s.earthquake, s.cyclone, s.heatwave]

/-- The fixed composite weights: flood 0.25, wildfire 0.20,
earthquake 0.20, cyclone 0.25, heatwave 0.10. -/
def weightedScoreOf (s : HazardScores) : ℚ :=
  s.flood * (25/100) + s.wildfire * (20/100) + s.earthquake * (20/100) +
    s.cyclone * (25/100) + s.heatwave * (10/100)

/-- `highRiskCount`: hazards with score at least 60. -/
def highRiskCountOf (s : HazardScores) : ℕ :=
  (s.values.filter (fun x => x ≥ 60)).length

/-- `amplification = highRiskCount > 1 ? 1 + highRiskCount * 0.1 : 1`. -/
def amplificationOf (s : HazardScores) : ℚ :=
  if highRiskCountOf s > 1 then 1 + (highRiskCountOf s : ℚ) * (10/100) else 1

/-- `finalScore = Math.min(100, Math.round(weightedScore * amplification))`
(note: no lower clamp in the source). -/
def finalScoreOf (s : HazardScores) : ℤ :=
  min 100 (jsRound (weightedScoreOf s * amplificationOf s))

/-- The `maxRisk` reduce over `Object.entries(scores)` with initial
accumulator `{key: null, score: 0}` and strict `>` comparison. -/
def maxRiskOf (s : HazardScores) : Option String × ℚ :=
  [("flood", s.flood), ("wildfire", s.wildfire), ("earthquake", s.earthquake),
   ("cyclone", s.cyclone), ("heatwave", s.heatwave)].foldl
    (fun m kv => if kv.2 > m.2 then (some kv.1, kv.2) else m) (none, 0)

/-- The hazard-key-to-display-name map indexed by `maxRisk.key`, with
`|| "None"` for a `null` key. -/
def primaryConcernOf (s : HazardScores) : String :=
  match (maxRiskOf s).1 with
  | some "flood" => "Flooding"
  | some "wildfire" => "Wildfire"
  | some "earthquake" => "Earthquake"
  | some "cyclone" => "Storm/Cyclone"
  | some "heatwave" => "Extreme Heat"
  | some _ => "None"
  | none => "None"

/-- The composite result (`weights` is the constant map above and is
not repeated here). -/
structure CompositeRiskIndex where
  score : ℤ
  level : RiskLevel
  primaryConcern : String
  breakdown : HazardScores
  highRiskCount : ℕ
deriving DecidableEq, Repr

/-- `calculateDisasterRiskIndex` from `disasterRiskEngine.js`. -/
def calculateDisasterRiskIndex (risks : Risks) : CompositeRiskIndex :=
  let scores : HazardScores :=
    { flood := riskScoreOf risks.floodRisk
      wildfire := riskScoreOf risks.wildfireRisk
      earthquake := riskScoreOf risks.earthquakeRisk
      cyclone := riskScoreOf risks.cycloneRisk
      heatwave := riskScoreOf risks.heatwaveRisk }
  { score := finalScoreOf scores
    level := getRiskLevel (finalScoreOf scores : ℚ)
    primaryConcern := primaryConcernOf scores
    breakdown := scores
    highRiskCount := highRiskCountOf scores }

/-! ## Ingestion layer (`disasterService.js`)

The fetchers interleave pure control flow (argument guard, cache
lookup) with one network round-trip.  The network round-trip together
with its payload post-processing is abstracted as an explicit
parameter `network : Except Unit α`: `Except.ok data` stands for a
successful fetch whose processed payload is `data`, `Except.error ()`
for a transport error or bad response (the `catch` path).  `now`
stands for `Date.now()`.  Each model returns the fetcher's result
paired with a flag recording whether the network call was performed. -/

/-- A cache key: dataset tag plus coordinates rounded to two decimals
(the JS builds the string `dataset-lat.toFixed(2)-lon.toFixed(2)`; the
model keeps the rounded pair). -/
structure CacheKey where
  dataset : String
  lat2 : ℚ
  lon2 : ℚ
deriving DecidableEq, Repr

/-- Rounding to two decimals (`toFixed(2)`). -/
def round2 (q : ℚ) : ℚ := (jsRound (q * 100) : ℚ) / 100

/-- A cache entry: payload plus the timestamp it was stored at. -/
structure CacheEntry (α : Type) where
  data : α
  timestamp : ℚ
deriving DecidableEq, Repr

/-- A cache state for one payload type: the `Map` holds at most one
entry per key, modelled as an association list looked up by key. -/
def CacheState (α : Type) := List (CacheKey × CacheEntry α)

/-- `CACHE_DURATION_MS = 10 * 60 * 1000`. -/
def CACHE_DURATION_MS : ℚ := 10 * 60 * 1000

/-- `getCached` from `disasterService.js`: the stored data when an
entry exists and is within TTL, else `null` (an expired entry is
deleted and `null` returned — expired entries are never served). -/
def getCached {α : Type} (cache : CacheState α) (key : CacheKey) (now : ℚ) :
    Option α :=
  match List.lookup key cache with
  | none => none
  | some e => if now - e.timestamp > CACHE_DURATION_MS then none else some e.data

/-- The first argument of each fetcher as a JavaScript value: the call
sites may pass a coordinates object, a bare number, or nothing. -/
inductive CoordArg where
  | obj (lat lon : Option ℚ)
  | number (q : ℚ)
  | nullv
deriving DecidableEq, Repr

/-- The guard `!coords?.lat || !coords?.lon` passes only when `coords`
is an object whose `lat` and `lon` fields are both present and truthy
(nonzero); a bare number or `null` has no such fields.  Returns the
coordinate pair when the guard passes. -/
def coordFields : CoordArg → Option (ℚ × ℚ)
  | .obj (some la) (some lo) =>
      if la ≠ 0 ∧ lo ≠ 0 then some (la, lo) else none
  | .obj _ _ => none
  | .number _ => none
  | .nullv => none

/-- `fetchEarthquakes` from `disasterService.js` (guard, cache probe,
fetch, catch-to-empty-list).  The in-`try` payload pipeline (mapping,
distance filter, sort, limit 10) is folded into the `network`
parameter.  Result: the returned event list, paired with whether the
network call happened. -/
def fetchEarthquakes (coords : CoordArg) (cache : CacheState (List Earthquake))
    (now : ℚ) (network : Except Unit (List Earthquake)) :
    List Earthquake × Bool :=
  match coordFields coords with
  | none => ([], false)
  | some (la, lo) =>
    match getCached cache ⟨"earthquakes", round2 la, round2 lo⟩ now with
    | some cached => (cached, false)
    | none =>
      match network with
      | .ok sorted => (sorted, true)
      | .error _ => ([], true)

/-- The `{alerts, storms}` payload of `fetchSevereWeather` (the `raw`
passthrough field is elided). -/
structure SevereWeatherData where
  alerts : List WeatherAlert
  storms : List Storm
deriving DecidableEq, Repr

/-- `fetchSevereWeather` from `disasterService.js`: same shape as
`fetchEarthquakes`, with empty default `{alerts: [], storms: []}`. -/
def fetchSevereWeather (coords : CoordArg)
    (cache : CacheState SevereWeatherData) (now : ℚ)
    (network : Except Unit SevereWeatherData) : SevereWeatherData × Bool :=
  match coordFields coords with
  | none => (⟨[], []⟩, false)
  | some (la, lo) =>
    match getCached cache ⟨"severe-weather", round2 la, round2 lo⟩ now with
    | some cached => (cached, false)
    | none =>
      match network with
      | .ok result => (result, true)
      | .error _ => (⟨[], []⟩, true)

/-- `fetchPrecipitationHistory` from `disasterService.js`: empty
default is `null`. -/
def fetchPrecipitationHistory (coords : CoordArg)
    (cache : CacheState PrecipData) (now : ℚ)
    (network : Except Unit PrecipData) : Option PrecipData × Bool :=
  match coordFields coords with
  | none => (none, false)
  | some (la, lo) =>
    match getCached cache ⟨"precip-history", round2 la, round2 lo⟩ now with
    | some cached => (some cached, false)
    | none =>
      match network with
      | .ok result => (some result, true)
      | .error _ => (none, true)

/-! ## The `useDisasterData` hook (`useDisasterData.js`)

`fetchAllData` calls the three fetchers as
`fetchEarthquakes(location.latitude, location.longitude, 500)`,
`fetchSevereWeather(location.latitude, location.longitude)`,
`fetchPrecipitationHistory(location.latitude, location.longitude, 7)`
— passing the bare latitude number where each fetcher expects a
`{lat, lon}` object — then feeds the results to the scorers. -/

/-- One refresh cycle of `fetchAllData`, given a location with numeric
`latitude`/`longitude`, arbitrary cache states and network outcomes,
and the current-weather snapshot used for flood/wildfire.  Returns the
flood, earthquake and cyclone risk results of the cycle. -/
def fetchAllDataCycle (latitude longitude : ℚ) (now : ℚ)
    (eqCache : CacheState (List Earthquake))
    (eqNetwork : Except Unit (List Earthquake))
    (swCache : CacheState SevereWeatherData)
    (swNetwork : Except Unit SevereWeatherData)
    (phCache : CacheState PrecipData)
    (phNetwork : Except Unit PrecipData)
    (currentWeather : Option CurrentWeather) :
    RiskScore × RiskScore × RiskScore :=
  let eqData := (fetchEarthquakes (.number latitude) eqCache now eqNetwork).1
  let severeData := (fetchSevereWeather (.number latitude) swCache now swNetwork).1
  let precipData := (fetchPrecipitationHistory (.number latitude) phCache now phNetwork).1
  let _ := longitude
  (calculateFloodRisk precipData currentWeather,
   calculateEarthquakeRisk (some eqData) now,
   calculateCycloneRisk (some severeData.storms) (some severeData.alerts))

/-! ## Helper lemmas -/

theorem floodF1_bounds (t : ℚ) : 0 ≤ (floodF1 t).1 ∧ (floodF1 t).1 ≤ 40 := by
  unfold floodF1; split_ifs <;> norm_num

theorem floodF2_bounds (t : ℚ) : 0 ≤ (floodF2 t).1 ∧ (floodF2 t).1 ≤ 35 := by
  unfold floodF2; split_ifs <;> norm_num

theorem floodF3_bounds (cw : Option CurrentWeather) :
    0 ≤ (floodF3 cw).1 ∧ (floodF3 cw).1 ≤ 25 := by
  unfold floodF3
  rcases cw with _ | w <;> simp <;> split_ifs <;> norm_num

theorem floodF4_bounds (l : List ℚ) : 0 ≤ (floodF4 l).1 ∧ (floodF4 l).1 ≤ 15 := by
  unfold floodF4; dsimp only; split_ifs <;> norm_num

theorem wildfireF1_bounds (t : ℚ) : 0 ≤ (wildfireF1 t).1 ∧ (wildfireF1 t).1 ≤ 30 := by
  unfold wildfireF1; split_ifs <;> norm_num

theorem wildfireF2_bounds (h : ℚ) : 0 ≤ (wildfireF2 h).1 ∧ (wildfireF2 h).1 ≤ 30 := by
  unfold wildfireF2; split_ifs <;> norm_num

theorem wildfireF3_bounds (w : ℚ) : 0 ≤ (wildfireF3 w).1 ∧ (wildfireF3 w).1 ≤ 25 := by
  unfold wildfireF3; split_ifs <;> norm_num

theorem wildfireF4_bounds (pd : Option PrecipData) :
    0 ≤ (wildfireF4 pd).1 ∧ (wildfireF4 pd).1 ≤ 20 := by
  unfold wildfireF4
  rcases pd with _ | p <;> simp <;> split_ifs <;> norm_num

theorem eqMagPoints_bounds (e : Earthquake) :
    0 ≤ (eqMagPoints e).1 ∧ (eqMagPoints e).1 ≤ 40 := by
  unfold eqMagPoints; split_ifs <;> norm_num

theorem eqProxPoints_bounds (e : Earthquake) :
    0 ≤ (eqProxPoints e).1 ∧ (eqProxPoints e).1 ≤ 25 := by
  unfold eqProxPoints; split_ifs <;> norm_num

theorem eqFreqPoints_bounds (n : ℕ) :
    0 ≤ (eqFreqPoints n).1 ∧ (eqFreqPoints n).1 ≤ 20 := by
  unfold eqFreqPoints; split_ifs <;> norm_num

theorem eqTsunamiPoints_bounds (l : List Earthquake) :
    0 ≤ (eqTsunamiPoints l).1 ∧ (eqTsunamiPoints l).1 ≤ 15 := by
  unfold eqTsunamiPoints; split_ifs <;> norm_num

theorem cycloneStormPoints_bounds (s : Storm) :
    0 ≤ (cycloneStormPoints s).1 ∧ (cycloneStormPoints s).1 ≤ 50 := by
  unfold cycloneStormPoints; split_ifs <;> norm_num

theorem cycloneGustPoints_bounds (s : Storm) :
    0 ≤ (cycloneGustPoints s).1 ∧ (cycloneGustPoints s).1 ≤ 25 := by
  unfold cycloneGustPoints; split_ifs <;> norm_num

theorem cycloneAlertPoints_bounds (l : List WeatherAlert) :
    0 ≤ (cycloneAlertPoints l).1 ∧ (cycloneAlertPoints l).1 ≤ 20 := by
  unfold cycloneAlertPoints; split_ifs <;> norm_num

/-- Clamping a nonnegative sum by `Math.min(100, ·)` lands in `[0, 100]`. -/
theorem clamp100_bounds {x : ℚ} (hx : 0 ≤ x) :
    0 ≤ min 100 x ∧ min 100 x ≤ 100 :=
  ⟨le_min (by norm_num) hx, min_le_left _ _⟩

theorem calculateFloodRisk_score_bounds (pd : Option PrecipData)
    (cw : Option CurrentWeather) :
    0 ≤ (calculateFloodRisk pd cw).score ∧ (calculateFloodRisk pd cw).score ≤ 100 := by
  rcases pd with _ | p
  · simp [calculateFloodRisk]
  · have h1 := floodF1_bounds (jsOrQ p.total7Day 0)
    have h2 := floodF2_bounds (jsOrQ p.total3Day 0)
    have h3 := floodF3_bounds cw
    have h4 := floodF4_bounds (p.precipitation.getD [])
    exact clamp100_bounds (by linarith [h1.1, h2.1, h3.1, h4.1])

theorem calculateWildfireRisk_score_bounds (w : Option CurrentWeather)
    (pd : Option PrecipData) :
    0 ≤ (calculateWildfireRisk w pd).score ∧ (calculateWildfireRisk w pd).score ≤ 100 := by
  rcases w with _ | wx
  · simp [calculateWildfireRisk]
  · have h1 := wildfireF1_bounds (jsOrQ wx.temperature (jsOrQ wx.temperature2m 0))
    have h2 := wildfireF2_bounds (jsOrQ wx.humidity (jsOrQ wx.relativeHumidity2m 50))
    have h3 := wildfireF3_bounds (jsOrQ wx.windSpeed (jsOrQ wx.windSpeed10m 0))
    have h4 := wildfireF4_bounds pd
    exact clamp100_bounds (by linarith [h1.1, h2.1, h3.1, h4.1])

theorem calculateEarthquakeRisk_score_bounds (eqs : Option (List Earthquake))
    (now : ℚ) :
    0 ≤ (calculateEarthquakeRisk eqs now).score ∧
      (calculateEarthquakeRisk eqs now).score ≤ 100 := by
  rcases eqs with _ | (_ | ⟨h, t⟩)
  · simp [calculateEarthquakeRisk]
  · simp [calculateEarthquakeRisk]
  · have h1 := eqMagPoints_bounds (strongestQuake h t)
    have h2 := eqProxPoints_bounds (strongestQuake h t)
    have h3 := eqFreqPoints_bounds (recent24h (h :: t) now).length
    have h4 := eqTsunamiPoints_bounds (h :: t)
    exact clamp100_bounds (by linarith [h1.1, h2.1, h3.1, h4.1])

theorem calculateCycloneRisk_score_bounds (st : Option (List Storm))
    (al : Option (List WeatherAlert)) :
    0 ≤ (calculateCycloneRisk st al).score ∧ (calculateCycloneRisk st al).score ≤ 100 := by
  unfold calculateCycloneRisk
  rcases hs : st.getD [] with _ | ⟨sh, stl⟩ <;> rcases ha : al.getD [] with _ | ⟨ah, atl⟩
  · simp
  · simp only [hs, ha]
    split_ifs with hgu
    · norm_num
    · exact clamp100_bounds (by linarith [(cycloneAlertPoints_bounds (ah :: atl)).1])
  · simp only [hs, ha]
    split_ifs with hgu
    · norm_num
    · exact clamp100_bounds
        (by linarith [(cycloneStormPoints_bounds (strongestStorm sh stl)).1,
          (cycloneGustPoints_bounds (strongestStorm sh stl)).1])
  · simp only [hs, ha]
    split_ifs with hgu
    · norm_num
    · exact clamp100_bounds
        (by linarith [(cycloneStormPoints_bounds (strongestStorm sh stl)).1,
          (cycloneGustPoints_bounds (strongestStorm sh stl)).1,
          (cycloneAlertPoints_bounds (ah :: atl)).1])

theorem calculateHeatwaveRiskScore_score_bounds (hw : Option HeatwaveInput) :
    0 ≤ (calculateHeatwaveRiskScore hw).score ∧
      (calculateHeatwaveRiskScore hw).score ≤ 100 := by
  rcases hw with _ | h
  · simp [calculateHeatwaveRiskScore]
  · simp only [calculateHeatwaveRiskScore]
    split_ifs <;> norm_num

theorem jsRound_mono {x y : ℚ} (h : x ≤ y) : jsRound x ≤ jsRound y :=
  Int.floor_le_floor (by linarith)

theorem jsRound_nonneg {x : ℚ} (h : 0 ≤ x) : 0 ≤ jsRound x := by
  have : (0 : ℤ) = ⌊(0 : ℚ) + 1/2⌋ := by norm_num
  rw [jsRound, this]
  exact Int.floor_le_floor (by linarith)

theorem amplificationOf_ge_one (s : HazardScores) : 1 ≤ amplificationOf s := by
  unfold amplificationOf
  split_ifs
  · have : (0 : ℚ) ≤ (highRiskCountOf s : ℚ) := Nat.cast_nonneg _
    linarith
  · exact le_refl 1

theorem weightedScoreOf_nonneg {s : HazardScores} (hf : 0 ≤ s.flood)
    (hw : 0 ≤ s.wildfire) (he : 0 ≤ s.earthquake) (hc : 0 ≤ s.cyclone)
    (hh : 0 ≤ s.heatwave) : 0 ≤ weightedScoreOf s := by
  unfold weightedScoreOf; linarith

theorem weightedScoreOf_le_100 {s : HazardScores} (hf : s.flood ≤ 100)
    (hw : s.wildfire ≤ 100) (he : s.earthquake ≤ 100) (hc : s.cyclone ≤ 100)
    (hh : s.heatwave ≤ 100) : weightedScoreOf s ≤ 100 := by
  unfold weightedScoreOf; linarith

theorem finalScoreOf_le_100 (s : HazardScores) : finalScoreOf s ≤ 100 :=
  min_le_left _ _

theorem finalScoreOf_nonneg {s : HazardScores} (hf : 0 ≤ s.flood)
    (hw : 0 ≤ s.wildfire) (he : 0 ≤ s.earthquake) (hc : 0 ≤ s.cyclone)
    (hh : 0 ≤ s.heatwave) : 0 ≤ finalScoreOf s := by
  have hws := weightedScoreOf_nonneg hf hw he hc hh
  have ha := amplificationOf_ge_one s
  have : (0 : ℚ) ≤ weightedScoreOf s * amplificationOf s :=
    mul_nonneg hws (by linarith)
  exact le_min (by norm_num) (jsRound_nonneg this)

/-! ## Claims -/

/-- C1 counterexample: `calculateDisasterRiskIndex` has no lower
clamp — a (malformed) input risk with score `-10` yields composite
score `-2`, outside `[0, 100]`.  (`Math.min(100, Math.round(-2.5)) =
-2`; `Math.round(-2.5) = -2`.) -/
theorem composite_score_not_lower_clamped :
    (calculateDisasterRiskIndex
      ⟨some ⟨-10, .LOW, none, none, none⟩, none, none, none, none⟩).score = -2 ∧
    (calculateDisasterRiskIndex
      ⟨some ⟨-10, .LOW, none, none, none⟩, none, none, none, none⟩).score < 0 := by
  have h : (calculateDisasterRiskIndex
      ⟨some ⟨-10, .LOW, none, none, none⟩, none, none, none, none⟩).score = -2 := by
    norm_num [calculateDisasterRiskIndex, finalScoreOf, weightedScoreOf, amplificationOf,
      highRiskCountOf, HazardScores.values, riskScoreOf, jsRound, List.filter, min_def,
      Int.floor_eq_iff]
  exact ⟨h, by rw [h]; norm_num⟩

/-- C1 (amended): every per-hazard scorer returns a score in `[0,100]`
for every input; `calculateDisasterRiskIndex` always returns a score
at most 100, and a score in `[0,100]` whenever every provided hazard
risk has a nonnegative score (as all scorer outputs do) — for
malformed inputs with a negative score only the upper bound holds. -/
theorem scorers_bounded_composite_bounded_on_nonneg :
    (∀ pd cw, 0 ≤ (calculateFloodRisk pd cw).score ∧
      (calculateFloodRisk pd cw).score ≤ 100) ∧
    (∀ w pd, 0 ≤ (calculateWildfireRisk w pd).score ∧
      (calculateWildfireRisk w pd).score ≤ 100) ∧
    (∀ eqs now, 0 ≤ (calculateEarthquakeRisk eqs now).score ∧
      (calculateEarthquakeRisk eqs now).score ≤ 100) ∧
    (∀ st al, 0 ≤ (calculateCycloneRisk st al).score ∧
      (calculateCycloneRisk st al).score ≤ 100) ∧
    (∀ hw, 0 ≤ (calculateHeatwaveRiskScore hw).score ∧
      (calculateHeatwaveRiskScore hw).score ≤ 100) ∧
    (∀ r : Risks, (calculateDisasterRiskIndex r).score ≤ 100) ∧
    (∀ r : Risks, 0 ≤ riskScoreOf r.floodRisk → 0 ≤ riskScoreOf r.wildfireRisk →
      0 ≤ riskScoreOf r.earthquakeRisk → 0 ≤ riskScoreOf r.cycloneRisk →
      0 ≤ riskScoreOf r.heatwaveRisk →
      0 ≤ (calculateDisasterRiskIndex r).score ∧
        (calculateDisasterRiskIndex r).score ≤ 100) := by
  refine ⟨calculateFloodRisk_score_bounds, calculateWildfireRisk_score_bounds,
    calculateEarthquakeRisk_score_bounds, calculateCycloneRisk_score_bounds,
    calculateHeatwaveRiskScore_score_bounds, fun r => finalScoreOf_le_100 _,
    fun r hf hw he hc hh => ⟨finalScoreOf_nonneg hf hw he hc hh, finalScoreOf_le_100 _⟩⟩

/-- Witness for the hypotheses of the amended C1 theorem at a concrete
input (all five risks present with nonnegative scores). -/
theorem scorers_bounded_composite_bounded_on_nonneg_witness :
    0 ≤ (calculateDisasterRiskIndex
      ⟨some ⟨50, .MODERATE, none, none, none⟩, some ⟨0, .LOW, none, none, none⟩,
       some ⟨65, .HIGH, none, none, none⟩, none, none⟩).score ∧
    (calculateDisasterRiskIndex
      ⟨some ⟨50, .MODERATE, none, none, none⟩, some ⟨0, .LOW, none, none, none⟩,
       some ⟨65, .HIGH, none, none, none⟩, none, none⟩).score ≤ 100 :=
  scorers_bounded_composite_bounded_on_nonneg.2.2.2.2.2.2
    ⟨some ⟨50, .MODERATE, none, none, none⟩, some ⟨0, .LOW, none, none, none⟩,
     some ⟨65, .HIGH, none, none, none⟩, none, none⟩
    (by decide) (by decide) (by decide) (by decide) (by decide)

/-- C2: the shared level function is a pure step function of the score
with exact boundaries — EXTREME iff score ≥ 85, HIGH iff 60 ≤ score <
85, MODERATE iff 35 ≤ score < 60, LOW iff score < 35; in particular
34→LOW, 35→MODERATE, 59→MODERATE, 60→HIGH, 84→HIGH, 85→EXTREME. -/
theorem getRiskLevel_step_boundaries :
    (∀ score : ℚ,
      (getRiskLevel score = .EXTREME ↔ 85 ≤ score) ∧
      (getRiskLevel score = .HIGH ↔ 60 ≤ score ∧ score < 85) ∧
      (getRiskLevel score = .MODERATE ↔ 35 ≤ score ∧ score < 60) ∧
      (getRiskLevel score = .LOW ↔ score < 35)) ∧
    getRiskLevel 34 = .LOW ∧ getRiskLevel 35 = .MODERATE ∧
    getRiskLevel 59 = .MODERATE ∧ getRiskLevel 60 = .HIGH ∧
    getRiskLevel 84 = .HIGH ∧ getRiskLevel 85 = .EXTREME := by
  refine ⟨fun score => ?_, by decide, by decide, by decide, by decide, by decide, by decide⟩
  unfold getRiskLevel
  split_ifs with h1 h2 h3 <;>
    refine ⟨?_, ?_, ?_, ?_⟩ <;> constructor <;> intro hx <;>
      first
      | linarith
      | rfl
      | (exact absurd hx (by decide))
      | (exact ⟨by linarith, by linarith⟩)
      | (exfalso; rcases hx with ⟨hx1, hx2⟩; linarith)
      | (exfalso; simp_all)

/-- Indicator used to reason about `highRiskCount` componentwise. -/
def hrInd (x : ℚ) : ℕ := if x ≥ 60 then 1 else 0

theorem highRiskCountOf_eq (s : HazardScores) :
    highRiskCountOf s =
      hrInd s.flood + hrInd s.wildfire + hrInd s.earthquake +
        hrInd s.cyclone + hrInd s.heatwave := by
  simp only [highRiskCountOf, HazardScores.values, hrInd, List.filter_cons,
    List.filter_nil, decide_eq_true_eq]
  split_ifs <;> rfl

theorem hrInd_mono {x y : ℚ} (h : x ≤ y) : hrInd x ≤ hrInd y := by
  unfold hrInd
  split_ifs <;> first | omega | (exfalso; linarith)

theorem highRiskCountOf_mono {s t : HazardScores} (hf : s.flood ≤ t.flood)
    (hw : s.wildfire ≤ t.wildfire) (he : s.earthquake ≤ t.earthquake)
    (hc : s.cyclone ≤ t.cyclone) (hh : s.heatwave ≤ t.heatwave) :
    highRiskCountOf s ≤ highRiskCountOf t := by
  rw [highRiskCountOf_eq, highRiskCountOf_eq]
  have := hrInd_mono hf
  have := hrInd_mono hw
  have := hrInd_mono he
  have := hrInd_mono hc
  have := hrInd_mono hh
  omega

theorem amplificationOf_mono {s t : HazardScores}
    (h : highRiskCountOf s ≤ highRiskCountOf t) :
    amplificationOf s ≤ amplificationOf t := by
  unfold amplificationOf
  split_ifs with h1 h2
  · have := (Nat.cast_le (α := ℚ)).2 h
    linarith
  · omega
  · have : (0 : ℚ) ≤ (highRiskCountOf t : ℚ) := Nat.cast_nonneg _
    linarith
  · exact le_refl 1

theorem finalScoreOf_mono {s t : HazardScores}
    (hf0 : 0 ≤ s.flood) (hw0 : 0 ≤ s.wildfire) (he0 : 0 ≤ s.earthquake)
    (hc0 : 0 ≤ s.cyclone) (hh0 : 0 ≤ s.heatwave)
    (hf : s.flood ≤ t.flood) (hw : s.wildfire ≤ t.wildfire)
    (he : s.earthquake ≤ t.earthquake) (hc : s.cyclone ≤ t.cyclone)
    (hh : s.heatwave ≤ t.heatwave) :
    finalScoreOf s ≤ finalScoreOf t := by
  have hW : weightedScoreOf s ≤ weightedScoreOf t := by
    unfold weightedScoreOf; linarith
  have hW0 : 0 ≤ weightedScoreOf s := weightedScoreOf_nonneg hf0 hw0 he0 hc0 hh0
  have hA : amplificationOf s ≤ amplificationOf t :=
    amplificationOf_mono (highRiskCountOf_mono hf hw he hc hh)
  have hA1 : 1 ≤ amplificationOf s := amplificationOf_ge_one s
  have hprod : weightedScoreOf s * amplificationOf s ≤
      weightedScoreOf t * amplificationOf t :=
    mul_le_mul hW hA (by linarith) (by linarith)
  exact min_le_min (le_refl _) (jsRound_mono hprod)

/-- C3: the composite final score is monotonic in each hazard —
raising any single one of the five (nonnegative) hazard scores while
the other four are fixed never decreases `finalScore`, amplification
steps included; and `calculateDisasterRiskIndex` reports exactly this
final score over its breakdown. -/
theorem composite_monotone_in_each_hazard :
    (∀ r : Risks, (calculateDisasterRiskIndex r).score =
      finalScoreOf (calculateDisasterRiskIndex r).breakdown) ∧
    (∀ s : HazardScores, ∀ x y : ℚ,
      0 ≤ s.flood → 0 ≤ s.wildfire → 0 ≤ s.earthquake → 0 ≤ s.cyclone →
      0 ≤ s.heatwave → 0 ≤ x → x ≤ y →
      finalScoreOf { s with flood := x } ≤ finalScoreOf { s with flood := y } ∧
      finalScoreOf { s with wildfire := x } ≤ finalScoreOf { s with wildfire := y } ∧
      finalScoreOf { s with earthquake := x } ≤ finalScoreOf { s with earthquake := y } ∧
      finalScoreOf { s with cyclone := x } ≤ finalScoreOf { s with cyclone := y } ∧
      finalScoreOf { s with heatwave := x } ≤ finalScoreOf { s with heatwave := y }) := by
  refine ⟨fun r => rfl, fun s x y hf hw he hc hh hx hxy => ?_⟩
  refine ⟨?_, ?_, ?_, ?_, ?_⟩ <;>
    exact finalScoreOf_mono (by simpa) (by simpa) (by simpa) (by simpa) (by simpa)
      (by simp [hxy]) (by simp [hxy]) (by simp [hxy]) (by simp [hxy]) (by simp [hxy])

/-- Witness for C3's hypotheses at a concrete input: raising the
earthquake score from 55 to 65 (crossing the ≥60 threshold) with
flood at 70 does not decrease the final score. -/
theorem composite_monotone_in_each_hazard_witness :
    finalScoreOf (⟨70, 10, 55, 0, 0⟩ : HazardScores) ≤
      finalScoreOf (⟨70, 10, 65, 0, 0⟩ : HazardScores) :=
  (composite_monotone_in_each_hazard.2
    ⟨70, 10, 0, 0, 0⟩ 55 65 (by norm_num) (by norm_num) (by norm_num)
    (by norm_num) (by norm_num) (by norm_num) (by norm_num)).2.2.1

/-- C4: the amplification factor is `1 + highRiskCount×0.1` exactly
when `highRiskCount > 1` and `1` otherwise; consequently, when the
input scores are within `[0,100]` and exactly one hazard scores ≥ 60,
the composite score is `round(weightedScore)` with no amplification. -/
theorem amplification_gating_single_high :
    (∀ s : HazardScores,
      (1 < highRiskCountOf s →
        amplificationOf s = 1 + (highRiskCountOf s : ℚ) * (10/100)) ∧
      (highRiskCountOf s ≤ 1 → amplificationOf s = 1)) ∧
    (∀ r : Risks,
      riskScoreOf r.floodRisk ≤ 100 → riskScoreOf r.wildfireRisk ≤ 100 →
      riskScoreOf r.earthquakeRisk ≤ 100 → riskScoreOf r.cycloneRisk ≤ 100 →
      riskScoreOf r.heatwaveRisk ≤ 100 →
      (calculateDisasterRiskIndex r).highRiskCount = 1 →
      (calculateDisasterRiskIndex r).score =
        jsRound (weightedScoreOf (calculateDisasterRiskIndex r).breakdown)) := by
  constructor
  · intro s
    constructor
    · intro h
      unfold amplificationOf
      rw [if_pos h]
    · intro h
      unfold amplificationOf
      rw [if_neg (by omega)]
  · intro r hf hw he hc hh hcount
    have hamp : amplificationOf (calculateDisasterRiskIndex r).breakdown = 1 := by
      unfold amplificationOf
      rw [if_neg ?_]
      have : highRiskCountOf (calculateDisasterRiskIndex r).breakdown =
          (calculateDisasterRiskIndex r).highRiskCount := rfl
      omega
    have hW : weightedScoreOf (calculateDisasterRiskIndex r).breakdown ≤ 100 :=
      weightedScoreOf_le_100 hf hw he hc hh
    have hround : jsRound (weightedScoreOf (calculateDisasterRiskIndex r).breakdown) ≤ 100 := by
      have h100 : jsRound (100 : ℚ) = 100 := by norm_num [jsRound]
      calc jsRound (weightedScoreOf (calculateDisasterRiskIndex r).breakdown)
          ≤ jsRound 100 := jsRound_mono hW
        _ = 100 := h100
    show finalScoreOf (calculateDisasterRiskIndex r).breakdown = _
    unfold finalScoreOf
    rw [hamp, mul_one]
    exact min_eq_right hround

/-- Witness for C4's hypotheses: a composite input with exactly one
hazard (flood, 65) at or above 60 has final score
`round(65×0.25) = round(16.25) = 16`. -/
theorem amplification_gating_single_high_witness :
    (calculateDisasterRiskIndex
      ⟨some ⟨65, .HIGH, none, none, none⟩, some ⟨10, .LOW, none, none, none⟩,
       none, none, none⟩).highRiskCount = 1 ∧
    (calculateDisasterRiskIndex
      ⟨some ⟨65, .HIGH, none, none, none⟩, some ⟨10, .LOW, none, none, none⟩,
       none, none, none⟩).score =
      jsRound (weightedScoreOf (calculateDisasterRiskIndex
        ⟨some ⟨65, .HIGH, none, none, none⟩, some ⟨10, .LOW, none, none, none⟩,
         none, none, none⟩).breakdown) := by
  have hcount : (calculateDisasterRiskIndex
      ⟨some ⟨65, .HIGH, none, none, none⟩, some ⟨10, .LOW, none, none, none⟩,
       none, none, none⟩).highRiskCount = 1 := by
    norm_num [calculateDisasterRiskIndex, highRiskCountOf, HazardScores.values,
      riskScoreOf, List.filter]
  exact ⟨hcount, amplification_gating_single_high.2 _ (by norm_num [riskScoreOf])
    (by norm_num [riskScoreOf]) (by norm_num [riskScoreOf]) (by norm_num [riskScoreOf])
    (by norm_num [riskScoreOf]) hcount⟩

/-- C6: the tsunami bonus is granted iff some event anywhere in the
list has the tsunami flag and magnitude ≥ 7 (a membership property,
independent of which event is strongest or nearest); the earthquake
score is the clamped sum of the four factor contributions; and the
Scenario C single event (magnitude 6.5, 50 km, tsunami-flagged, within
24 h) scores 40 + 25 = 65 with no tsunami bonus, level HIGH. -/
theorem tsunami_bonus_scans_whole_list :
    (∀ l : List Earthquake,
      eqTsunamiPoints l =
        if ∃ e ∈ l, e.tsunami = true ∧ 7 ≤ e.magnitude then
          (15, [⟨"Tsunami potential", "HIGH"⟩]) else (0, [])) ∧
    (∀ (h : Earthquake) (t : List Earthquake) (now : ℚ),
      (calculateEarthquakeRisk (some (h :: t)) now).score =
        min 100 ((eqMagPoints (strongestQuake h t)).1 +
          (eqProxPoints (strongestQuake h t)).1 +
          (eqFreqPoints (recent24h (h :: t) now).length).1 +
          (eqTsunamiPoints (h :: t)).1)) ∧
    (calculateEarthquakeRisk (some [⟨6.5, 50, 0, true⟩]) 1000).score = 65 ∧
    (calculateEarthquakeRisk (some [⟨6.5, 50, 0, true⟩]) 1000).level = .HIGH := by
  refine ⟨fun l => ?_, fun h t now => rfl, ?_, ?_⟩
  · unfold eqTsunamiPoints
    simp only [List.any_eq_true, Bool.and_eq_true, decide_eq_true_eq, ge_iff_le]
  · norm_num [calculateEarthquakeRisk, strongestQuake, eqMagPoints, eqProxPoints,
      recent24h, eqFreqPoints, eqTsunamiPoints, List.filter, List.foldl, min_def]
  · norm_num [calculateEarthquakeRisk, strongestQuake, eqMagPoints, eqProxPoints,
      recent24h, eqFreqPoints, eqTsunamiPoints, getRiskLevel, List.filter,
      List.foldl, min_def]

/-- C7: evaluation of the wildfire scorer at the humidity falsy-zero
slip — with temperature 36 and wind 0, humidity 1 scores 20 + 30 = 50,
but humidity 0 is swallowed by the defaulting chain `humidity ||
relative_humidity_2m || 50` (0 is falsy), scoring only 20: lowering
humidity from 1 to 0 decreases the score, against the documented
`humidity<20:+30` factor table. -/
theorem wildfire_humidity_zero_scores_lower :
    (calculateWildfireRisk (some ⟨some 36, none, some 1, none, none, none, none⟩)
      none).score = 50 ∧
    (calculateWildfireRisk (some ⟨some 36, none, some 0, none, none, none, none⟩)
      none).score = 20 ∧
    (20 : ℚ) < 50 := by
  refine ⟨?_, ?_, by norm_num⟩ <;>
    norm_num [calculateWildfireRisk, wildfireF1, wildfireF2, wildfireF3, wildfireF4,
      jsOrQ, min_def]

/-- C8 counterexample: `calculateHeatwaveRiskScore` on an absent input
returns score 0 and level LOW but carries no reasoning string at all
(its result object has only `score` and `level`). -/
theorem heatwave_default_has_no_reasoning :
    (calculateHeatwaveRiskScore none).score = 0 ∧
    (calculateHeatwaveRiskScore none).level = .LOW ∧
    (calculateHeatwaveRiskScore none).reasoning = none :=
  ⟨rfl, rfl, rfl⟩

/-- C8 (amended): no scorer raises on absent/empty input — flood,
wildfire, earthquake and cyclone return score 0, level LOW and their
fixed no-data reasoning string; the heatwave adapter returns score 0
and level LOW but no reasoning string. -/
theorem scorers_empty_input_defaults :
    (∀ cw, calculateFloodRisk none cw =
      ⟨0, .LOW, some [], some "Insufficient precipitation data available", none⟩) ∧
    (∀ pd, calculateWildfireRisk none pd =
      ⟨0, .LOW, some [], some "Insufficient weather data", none⟩) ∧
    (∀ now, calculateEarthquakeRisk none now =
      ⟨0, .LOW, some [], some "No significant seismic activity detected nearby", none⟩) ∧
    (∀ now, calculateEarthquakeRisk (some []) now =
      ⟨0, .LOW, some [], some "No significant seismic activity detected nearby", none⟩) ∧
    (∀ st al, (st = none ∨ st = some []) → (al = none ∨ al = some []) →
      calculateCycloneRisk st al =
        ⟨0, .LOW, some [], some "No active storm systems detected", none⟩) ∧
    calculateHeatwaveRiskScore none = ⟨0, .LOW, none, none, none⟩ := by
  refine ⟨fun cw => rfl, fun pd => rfl, fun now => rfl, fun now => rfl, ?_, rfl⟩
  rintro st al (rfl | rfl) (rfl | rfl) <;> rfl

/-- Witness for the hypotheses of the amended C8 theorem: the cyclone
scorer's default at `null` storms and an empty alert list. -/
theorem scorers_empty_input_defaults_witness :
    calculateCycloneRisk none (some []) =
      ⟨0, .LOW, some [], some "No active storm systems detected", none⟩ :=
  scorers_empty_input_defaults.2.2.2.2.1 none (some []) (Or.inl rfl) (Or.inr rfl)

set_option maxHeartbeats 1000000 in
/-- C9: `primaryConcern` names the hazard with the strictly greatest
score under the fixed tie-break order flood, wildfire, earthquake,
cyclone, heatwave (first maximum wins), and is "None" exactly when all
five (nonnegative) scores are 0; `calculateDisasterRiskIndex` reports
exactly this over its breakdown. -/
theorem primary_concern_first_max :
    (∀ r : Risks, (calculateDisasterRiskIndex r).primaryConcern =
      primaryConcernOf (calculateDisasterRiskIndex r).breakdown) ∧
    (∀ f w e c h : ℚ, 0 ≤ f → 0 ≤ w → 0 ≤ e → 0 ≤ c → 0 ≤ h →
      (primaryConcernOf ⟨f, w, e, c, h⟩ = "None" ↔
        f = 0 ∧ w = 0 ∧ e = 0 ∧ c = 0 ∧ h = 0) ∧
      (primaryConcernOf ⟨f, w, e, c, h⟩ = "Flooding" ↔
        0 < f ∧ w ≤ f ∧ e ≤ f ∧ c ≤ f ∧ h ≤ f) ∧
      (primaryConcernOf ⟨f, w, e, c, h⟩ = "Wildfire" ↔
        0 < w ∧ f < w ∧ e ≤ w ∧ c ≤ w ∧ h ≤ w) ∧
      (primaryConcernOf ⟨f, w, e, c, h⟩ = "Earthquake" ↔
        0 < e ∧ f < e ∧ w < e ∧ c ≤ e ∧ h ≤ e) ∧
      (primaryConcernOf ⟨f, w, e, c, h⟩ = "Storm/Cyclone" ↔
        0 < c ∧ f < c ∧ w < c ∧ e < c ∧ h ≤ c) ∧
      (primaryConcernOf ⟨f, w, e, c, h⟩ = "Extreme Heat" ↔
        0 < h ∧ f < h ∧ w < h ∧ e < h ∧ c < h)) := by
  refine ⟨fun r => rfl, fun f w e c h hf hw he hc hh => ?_⟩
  unfold primaryConcernOf maxRiskOf
  simp only [List.foldl]
  split_ifs <;> (try dsimp only at *) <;>
    refine ⟨?_, ?_, ?_, ?_, ?_, ?_⟩ <;> constructor <;> intro hx <;>
      first
      | rfl
      | (exact absurd hx (by decide))
      | (exact ⟨by linarith, by linarith, by linarith, by linarith, by linarith⟩)
      | (exfalso; rcases hx with ⟨h1, h2, h3, h4, h5⟩; linarith)

/-- Witness for C9's hypotheses: with flood and wildfire tied at 50,
the first hazard in iteration order wins — `primaryConcern` is
"Flooding". -/
theorem primary_concern_first_max_witness :
    primaryConcernOf ⟨50, 50, 0, 0, 0⟩ = "Flooding" :=
  ((primary_concern_first_max.2 50 50 0 0 0 (by norm_num) (by norm_num)
    (by norm_num) (by norm_num) (by norm_num)).2.1).mpr
    ⟨by norm_num, by norm_num, by norm_num, by norm_num, by norm_num⟩

/-- C5 counterexample: with a stale cached entry present for the
dataset key (stored at time 0, queried at TTL+1 ms) and a failing
fetch, `fetchEarthquakes` performs the fetch and returns the empty
default `[]` — not the cached entry the claim promises. -/
theorem fetch_failure_ignores_stale_cache :
    fetchEarthquakes (.obj (some 10) (some 20))
        [(⟨"earthquakes", 10, 20⟩, ⟨[⟨5, 100, 0, false⟩], 0⟩)] 600001
        (.error ()) = ([], true) ∧
    List.lookup (⟨"earthquakes", 10, 20⟩ : CacheKey)
        [(⟨"earthquakes", 10, 20⟩,
          (⟨[⟨5, 100, 0, false⟩], 0⟩ : CacheEntry (List Earthquake)))] =
      some ⟨[⟨5, 100, 0, false⟩], 0⟩ ∧
    ([] : List Earthquake) ≠ [⟨5, 100, 0, false⟩] := by
  refine ⟨?_, by norm_num [List.lookup], by simp⟩
  norm_num [fetchEarthquakes, coordFields, getCached, round2, jsRound,
    CACHE_DURATION_MS, List.lookup]

/-- C5 (amended): when an ingestion fetch is actually attempted and
fails, each fetcher returns its hazard-specific empty default (`[]`,
`{alerts: [], storms: []}`, `null`) regardless of any cached entry,
and never raises; cached entries are served only before fetching and
only within the 10-minute TTL — `getCached` returns `null` for any
entry older than the TTL. -/
theorem fetch_failure_returns_empty_default :
    (∀ coords cache now la lo, coordFields coords = some (la, lo) →
      getCached cache ⟨"earthquakes", round2 la, round2 lo⟩ now = none →
      fetchEarthquakes coords cache now (.error ()) = ([], true)) ∧
    (∀ coords cache now la lo, coordFields coords = some (la, lo) →
      getCached cache ⟨"severe-weather", round2 la, round2 lo⟩ now = none →
      fetchSevereWeather coords cache now (.error ()) = (⟨[], []⟩, true)) ∧
    (∀ coords cache now la lo, coordFields coords = some (la, lo) →
      getCached cache ⟨"precip-history", round2 la, round2 lo⟩ now = none →
      fetchPrecipitationHistory coords cache now (.error ()) = (none, true)) ∧
    (∀ (α : Type) (cache : CacheState α) (key : CacheKey) (now : ℚ)
        (e : CacheEntry α),
      List.lookup key cache = some e → now - e.timestamp > CACHE_DURATION_MS →
      getCached cache key now = none) := by
  refine ⟨?_, ?_, ?_, ?_⟩
  · intro coords cache now la lo hc hg
    unfold fetchEarthquakes
    rw [hc]
    dsimp only
    rw [hg]
  · intro coords cache now la lo hc hg
    unfold fetchSevereWeather
    rw [hc]
    dsimp only
    rw [hg]
  · intro coords cache now la lo hc hg
    unfold fetchPrecipitationHistory
    rw [hc]
    dsimp only
    rw [hg]
  · intro α cache key now e hl hgt
    unfold getCached
    rw [hl]
    dsimp only
    rw [if_pos hgt]

/-- Witness for the hypotheses of the amended C5 theorem: a failing
fetch with valid coordinates and an empty cache is attempted and
returns `[]`; and `getCached` drops a concrete expired entry. -/
theorem fetch_failure_returns_empty_default_witness :
    fetchEarthquakes (.obj (some 10) (some 20)) [] 0 (.error ()) = ([], true) ∧
    getCached [(⟨"earthquakes", 10, 20⟩,
        (⟨[⟨5, 100, 0, false⟩], 0⟩ : CacheEntry (List Earthquake)))]
      ⟨"earthquakes", 10, 20⟩ 600001 = none :=
  ⟨fetch_failure_returns_empty_default.1 (.obj (some 10) (some 20)) [] 0 10 20
    (by norm_num [coordFields]) rfl,
   fetch_failure_returns_empty_default.2.2.2 (List Earthquake)
    [(⟨"earthquakes", 10, 20⟩, ⟨[⟨5, 100, 0, false⟩], 0⟩)]
    ⟨"earthquakes", 10, 20⟩ 600001 ⟨[⟨5, 100, 0, false⟩], 0⟩
    (by norm_num [List.lookup]) (by norm_num [CACHE_DURATION_MS])⟩

/-- C10: each fetcher returns its empty default without performing any
fetch whenever its first argument is not an object with truthy `lat`
and `lon` fields (in particular for a bare number); since
`useDisasterData`'s `fetchAllData` passes the bare latitude number as
the first argument, every refresh cycle receives the empty defaults,
so its flood, earthquake and cyclone risks always equal the zero-score
LOW no-data defaults, regardless of cache contents or network
outcomes. -/
theorem hook_passes_numbers_gets_defaults :
    (∀ (c : CoordArg) cache now net, coordFields c = none →
      fetchEarthquakes c cache now net = ([], false)) ∧
    (∀ (c : CoordArg) cache now net, coordFields c = none →
      fetchSevereWeather c cache now net = (⟨[], []⟩, false)) ∧
    (∀ (c : CoordArg) cache now net, coordFields c = none →
      fetchPrecipitationHistory c cache now net = (none, false)) ∧
    (∀ q : ℚ, coordFields (.number q) = none) ∧
    (∀ latitude longitude now eqC eqN swC swN phC phN cw,
      fetchAllDataCycle latitude longitude now eqC eqN swC swN phC phN cw =
        (⟨0, .LOW, some [], some "Insufficient precipitation data available", none⟩,
         ⟨0, .LOW, some [], some "No significant seismic activity detected nearby", none⟩,
         ⟨0, .LOW, some [], some "No active storm systems detected", none⟩)) := by
  refine ⟨?_, ?_, ?_, fun q => rfl, fun la lo now eqC eqN swC swN phC phN cw => rfl⟩ <;>
    · intro c cache now net h
      first
      | (unfold fetchEarthquakes; rw [h])
      | (unfold fetchSevereWeather; rw [h])
      | (unfold fetchPrecipitationHistory; rw [h])

/-- Witness for C10's hypotheses: a `null` first argument (which has
no `lat`/`lon` fields) yields the empty default with no fetch even
when the network would have succeeded with data. -/
theorem hook_passes_numbers_gets_defaults_witness :
    fetchEarthquakes .nullv [] 0 (.ok [⟨5, 100, 0, false⟩]) = ([], false) :=
  hook_passes_numbers_gets_defaults.1 .nullv [] 0 (.ok [⟨5, 100, 0, false⟩]) rfl

end AstroView
